import Mathlib

/-!
Shallow embedding of the snapshot/execute/rollback core of the
LLMSuperScripter repository (`src/core/superuser_assistant.py`) and of the
LLM orchestration layer (`src/core/llm_interface.py`).

Filesystem state, subprocess results and interactive answers are passed in
explicitly; every function is a total Lean function whose branches mirror
the Python control flow line by line.
-/

/-- The metadata record written to `metadata.json` by `create_system_snapshot`
(keys `snapshot_id, timestamp, operation, system, user, cwd`). -/
structure Metadata where
  snapshot_id : String
  timestamp : String
  operation : String
  system : String
  user : String
  cwd : String
  deriving DecidableEq, Repr

/-- Serialization of the metadata record, modelling `json.dump(metadata, f)`. -/
def metadataToJsonString (m : Metadata) : String :=
  "\x7b \"snapshot_id\": \"" ++ m.snapshot_id ++ "\", \"timestamp\": \"" ++ m.timestamp ++
    "\", \"operation\": \"" ++ m.operation ++ "\", \"system\": \"" ++ m.system ++
    "\", \"user\": \"" ++ m.user ++ "\", \"cwd\": \"" ++ m.cwd ++ "\" \x7d"

/-- A snapshot directory: the files it contains, as (basename, content) pairs. -/
structure Snapshot where
  files : List (String × String)
  deriving DecidableEq, Repr

/-- Environment for `create_system_snapshot`: platform, whether the registry
export subprocess succeeds, which source config files exist and their
contents, and which `shutil.copy2` calls succeed (per basename). -/
structure CreateEnv where
  osIsNt : Bool
  regExportOk : Bool
  regExportContent : String
  bashrcExists : Bool
  bashrcContent : String
  sshConfigExists : Bool
  sshConfigContent : String
  etcHostsExists : Bool
  etcHostsContent : String
  copyOk : String → Bool
  system : String
  user : String
  cwd : String

/-- What `create_system_snapshot` produces: the returned id, the metadata
record written to `metadata.json`, and the snapshot directory contents. -/
structure CreateResult where
  snapshot_id : String
  metadata : Metadata
  dir : Snapshot

/-- `SuperUserAssistant.create_system_snapshot` (superuser_assistant.py:40-88).
Builds `snapshot_id = f"{operation_name}_{timestamp}"`, creates the directory,
on Windows attempts a registry export (failure logged and skipped), best-effort
copies `.bashrc`, `.ssh/config` and `/etc/hosts` (each copy failure logged and
skipped), and always writes `metadata.json`. It is a total function: no failure
propagates to the caller. -/
def create_system_snapshot (operation_name timestamp : String) (env : CreateEnv) :
    CreateResult :=
  let snapshot_id := operation_name ++ "_" ++ timestamp
  -- Backup registry (Windows); CalledProcessError is caught and logged
  let regFiles : List (String × String) :=
    if env.osIsNt && env.regExportOk then [("registry_backup.reg", env.regExportContent)]
    else []
  -- Backup important configs: source path & basename pairs, guarded by existence
  let configCandidates : List (Bool × String × String) :=
    [(env.bashrcExists, ".bashrc", env.bashrcContent),
     (env.sshConfigExists, "config", env.sshConfigContent),
     (env.etcHostsExists, "hosts", env.etcHostsContent)]
  -- each copy failure is logged and skipped
  let copied := configCandidates.filterMap fun t =>
    if t.1 && env.copyOk t.2.1 then some (t.2.1, t.2.2) else none
  let metadata : Metadata :=
    { snapshot_id := snapshot_id, timestamp := timestamp, operation := operation_name,
      system := env.system, user := env.user, cwd := env.cwd }
  { snapshot_id := snapshot_id, metadata := metadata,
    dir := ⟨regFiles ++ copied ++ [("metadata.json", metadataToJsonString metadata)]⟩ }

/-- Environment for `rollback_snapshot`: platform, whether `reg import`
succeeds, the home directory path, and which `shutil.copy2` restore calls
succeed (per basename). -/
structure RollbackEnv where
  osIsNt : Bool
  regImportOk : Bool
  home : String
  copyOk : String → Bool

/-- The filename → original-location table of `rollback_snapshot`
(superuser_assistant.py:112-126): `metadata.json` and `registry_backup.reg`
are skipped, `.bashrc` goes to the home directory, `config` to
`~/.ssh/config`, `hosts` to `/etc/hosts`, and every other name is skipped. -/
def restoreTarget (home name : String) : Option String :=
  if name = "metadata.json" ∨ name = "registry_backup.reg" then none
  else if name = ".bashrc" then some (home ++ "/.bashrc")
  else if name = "config" then some (home ++ "/.ssh/config")
  else if name = "hosts" then some "/etc/hosts"
  else none

/-- Outcome of `rollback_snapshot`: the returned bool, whether a `reg import`
was attempted, and the (destination, content) pairs actually restored. -/
structure RollbackOutcome where
  result : Bool
  regImportAttempted : Bool
  restored : List (String × String)
  deriving DecidableEq, Repr

/-- Whether the snapshot directory contains `registry_backup.reg`. -/
def hasRegBackup (snap : Snapshot) : Bool :=
  snap.files.any fun f => f.1 == "registry_backup.reg"

/-- The restore loop of `rollback_snapshot`: every file with a mapped target
whose copy succeeds is restored; copy failures are logged and skipped, the
loop continues. -/
def restoreFiles (env : RollbackEnv) (snap : Snapshot) : List (String × String) :=
  snap.files.filterMap fun f =>
    match restoreTarget env.home f.1 with
    | some orig => if env.copyOk f.1 then some (orig, f.2) else none
    | none => none

/-- `SuperUserAssistant.rollback_snapshot` (superuser_assistant.py:90-134).
`none` models a snapshot id whose directory does not exist (early `return
False`). Otherwise: on Windows, if `registry_backup.reg` exists, `reg import`
is run first and its failure returns `False` before any file restore; then
the config files are copied back (per-file errors logged and skipped) and the
function returns `True`. -/
def rollback_snapshot (env : RollbackEnv) (snap? : Option Snapshot) : RollbackOutcome :=
  match snap? with
  | none => { result := false, regImportAttempted := false, restored := [] }
  | some snap =>
    if env.osIsNt && hasRegBackup snap then
      if env.regImportOk then
        { result := true, regImportAttempted := true, restored := restoreFiles env snap }
      else
        { result := false, regImportAttempted := true, restored := [] }
    else
      { result := true, regImportAttempted := false, restored := restoreFiles env snap }

/-- An entry of the backup root directory as seen by `list_snapshots`:
a non-directory, a directory without `metadata.json`, a directory whose
`metadata.json` fails to parse, or a directory with parseable metadata. -/
inductive DirEntry where
  | file (name : String)
  | dirNoMeta (name : String)
  | dirBadMeta (name : String)
  | dirMeta (m : Metadata)
  deriving DecidableEq, Repr

/-- The sort key relation of `list_snapshots`: `a` precedes `b` when
`b.timestamp <= a.timestamp` (descending by timestamp string, i.e.
`sorted(..., key=lambda x: x["timestamp"], reverse=True)`). -/
def tsDesc (a b : Metadata) : Prop := b.timestamp ≤ a.timestamp

instance : DecidableRel tsDesc := fun a b =>
  inferInstanceAs (Decidable (b.timestamp ≤ a.timestamp))

instance : IsTotal Metadata tsDesc := ⟨fun a b => le_total b.timestamp a.timestamp⟩

instance : IsTrans Metadata tsDesc := ⟨fun _ _ _ h1 h2 => le_trans h2 h1⟩

/-- `SuperUserAssistant.list_snapshots` (superuser_assistant.py:203-216):
collects the metadata of every subdirectory that has a parseable
`metadata.json` (non-directories, missing metadata and unparseable metadata
are skipped) and sorts by timestamp string descending. -/
def list_snapshots (root : List DirEntry) : List Metadata :=
  List.insertionSort tsDesc (root.filterMap fun e =>
    match e with
    | .dirMeta m => some m
    | _ => none)

/-- Observable events of one `safe_execute` run, in order of occurrence. -/
inductive Event where
  | snapCreate (id : String)
  | confirmPrompt
  | execCmd
  | rollbackPrompt
  | rollbackRun (ok : Bool)
  deriving DecidableEq, Repr

/-- The result of the `subprocess.run` call inside `safe_execute`: a completed
process with exit code and captured streams, a `TimeoutExpired`, or any other
exception. -/
inductive ExecOutcome where
  | completed (returncode : Int) (stdout stderr : String)
  | timedOut
  | raised (msg : String)
  deriving DecidableEq, Repr

/-- Python's `str.lower()` on the answer string, character by character. -/
def pyLower (s : String) : String := String.mk (s.data.map Char.toLower)

/-- The affirmative check of both prompts: `input(...).lower() in ["yes", "y"]`. -/
def isAffirmative (s : String) : Bool := decide (pyLower s = "yes" ∨ pyLower s = "y")

/-- Inputs of one `safe_execute` run: the command and operation strings, the
current timestamp, the snapshot-creation environment, the backup root before
the call, the two interactive answers, the subprocess outcome, and the
environment a rollback would run in. -/
structure SafeExecCfg where
  command : String
  operation_name : String
  require_admin : Bool
  timestamp : String
  createEnv : CreateEnv
  root : List DirEntry
  confirmAnswer : String
  execOutcome : ExecOutcome
  rollbackAnswer : String
  rollbackEnv : RollbackEnv

/-- Outcome of `safe_execute`: the returned `(success, stdout, stderr)` tuple,
the ordered event trace, the snapshot created at entry, and the backup root
after the call. -/
structure SafeExecResult where
  res : Bool × String × String
  events : List Event
  snapshot : CreateResult
  finalRoot : List DirEntry

/-- `SuperUserAssistant.safe_execute` (superuser_assistant.py:136-201).
A snapshot is created first, then the confirmation prompt is shown; a
non-affirmative answer returns `(False, "", "Operation cancelled")` without
executing. Otherwise the command runs: exit code 0 returns
`(True, stdout, stderr)`; a non-zero exit shows the rollback prompt and,
on an affirmative answer, runs `rollback_snapshot`, returning
`(False, stdout, stderr)` either way; `TimeoutExpired` returns
`(False, "", "Command timed out")` and any other exception returns
`(False, "", str(e))`, both without any rollback prompt. Nothing ever
removes the created snapshot from the backup root. -/
def safe_execute (cfg : SafeExecCfg) : SafeExecResult :=
  let cr := create_system_snapshot cfg.operation_name cfg.timestamp cfg.createEnv
  let root2 := cfg.root ++ [DirEntry.dirMeta cr.metadata]
  let ev0 := [Event.snapCreate cr.snapshot_id, Event.confirmPrompt]
  if isAffirmative cfg.confirmAnswer then
    match cfg.execOutcome with
    | ExecOutcome.completed rc out err =>
      if rc = 0 then
        { res := (true, out, err), events := ev0 ++ [Event.execCmd],
          snapshot := cr, finalRoot := root2 }
      else
        if isAffirmative cfg.rollbackAnswer then
          let rb := rollback_snapshot cfg.rollbackEnv (some cr.dir)
          { res := (false, out, err),
            events := ev0 ++ [Event.execCmd, Event.rollbackPrompt, Event.rollbackRun rb.result],
            snapshot := cr, finalRoot := root2 }
        else
          { res := (false, out, err),
            events := ev0 ++ [Event.execCmd, Event.rollbackPrompt],
            snapshot := cr, finalRoot := root2 }
    | ExecOutcome.timedOut =>
      { res := (false, "", "Command timed out"), events := ev0 ++ [Event.execCmd],
        snapshot := cr, finalRoot := root2 }
    | ExecOutcome.raised msg =>
      { res := (false, "", msg), events := ev0 ++ [Event.execCmd],
        snapshot := cr, finalRoot := root2 }
  else
    { res := (false, "", "Operation cancelled"), events := ev0,
      snapshot := cr, finalRoot := root2 }

/-- JSON values as produced by `json.loads`: null, booleans, strings, numbers
(kept as their lexeme), arrays and objects. -/
inductive Json where
  | null
  | bool (b : Bool)
  | str (s : String)
  | num (lexeme : String)
  | arr (elems : List Json)
  | obj (fields : List (String × Json))

/-- JSON whitespace (space, linefeed, tab, carriage return). -/
def jsonWs (c : Char) : Bool := c == ' ' || c.toNat == 10 || c.toNat == 9 || c.toNat == 13

/-- Skip leading JSON whitespace. -/
def skipWs (cs : List Char) : List Char := cs.dropWhile jsonWs

/-- Decimal digit test by code point. -/
def isDigitCh (c : Char) : Bool := 47 < c.toNat && c.toNat < 58

/-- Hexadecimal digit value by code point, if any. -/
def hexDigitVal (c : Char) : Option Nat :=
  let n := c.toNat
  if 47 < n && n < 58 then some (n - 48)
  else if 96 < n && n < 103 then some (n - 87)
  else if 64 < n && n < 71 then some (n - 55)
  else none

/-- Longest digit prefix and the rest. -/
def takeDigits (cs : List Char) : List Char × List Char :=
  (cs.takeWhile isDigitCh, cs.dropWhile isDigitCh)

/-- Parse the body of a JSON string after the opening quote; strict escape
handling as in Python's `json` module. -/
def parseStringBody : Nat → List Char → Option (String × List Char)
  | 0, _ => none
  | _, [] => none
  | fuel + 1, c :: cs =>
    if c == '"' then some ("", cs)
    else if c == '\\' then
      match cs with
      | [] => none
      | e :: cs2 =>
        if e == '"' then (parseStringBody fuel cs2).map fun p => ("\"" ++ p.1, p.2)
        else if e == '\\' then (parseStringBody fuel cs2).map fun p => ("\\" ++ p.1, p.2)
        else if e == '/' then (parseStringBody fuel cs2).map fun p => ("/" ++ p.1, p.2)
        else if e == 'n' then (parseStringBody fuel cs2).map fun p => ("\n" ++ p.1, p.2)
        else if e == 't' then (parseStringBody fuel cs2).map fun p => ("\t" ++ p.1, p.2)
        else if e == 'r' then (parseStringBody fuel cs2).map fun p => ("\r" ++ p.1, p.2)
        else if e == 'b' then
          (parseStringBody fuel cs2).map fun p => (String.singleton (Char.ofNat 8) ++ p.1, p.2)
        else if e == 'f' then
          (parseStringBody fuel cs2).map fun p => (String.singleton (Char.ofNat 12) ++ p.1, p.2)
        else if e == 'u' then
          match cs2 with
          | h1 :: h2 :: h3 :: h4 :: cs3 =>
            match hexDigitVal h1, hexDigitVal h2, hexDigitVal h3, hexDigitVal h4 with
            | some v1, some v2, some v3, some v4 =>
              (parseStringBody fuel cs3).map fun p =>
                (String.singleton (Char.ofNat (((v1 * 16 + v2) * 16 + v3) * 16 + v4)) ++ p.1, p.2)
            | _, _, _, _ => none
          | _ => none
        else none
    else (parseStringBody fuel cs).map fun p => (String.singleton c ++ p.1, p.2)

/-- Parse a JSON number (`-? (0 | [1-9][0-9]*) (.[0-9]+)? ([eE][+-]?[0-9]+)?`),
returning its lexeme. -/
def parseNumber (cs0 : List Char) : Option (String × List Char) :=
  let signAndRest : List Char × List Char :=
    match cs0 with
    | '-' :: cs => (['-'], cs)
    | cs => ([], cs)
  let sign := signAndRest.1
  match signAndRest.2 with
  | [] => none
  | c :: cs =>
    if c == '0' then
      let intPart := [c]
      let afterInt := cs
      let fracAndRest : List Char × List Char :=
        match afterInt with
        | '.' :: cs2 =>
          let p := takeDigits cs2
          if p.1.isEmpty then ([], afterInt) else ('.' :: p.1, p.2)
        | _ => ([], afterInt)
      if fracAndRest.1.isEmpty && (match afterInt with | '.' :: _ => true | _ => false) then none
      else
        let afterFrac := fracAndRest.2
        match afterFrac with
        | e :: rest =>
          if e == 'e' || e == 'E' then
            let expSignAndRest : List Char × List Char :=
              match rest with
              | '+' :: r2 => (['+'], r2)
              | '-' :: r2 => (['-'], r2)
              | r2 => ([], r2)
            let d := takeDigits expSignAndRest.2
            if d.1.isEmpty then none
            else some (String.mk (sign ++ intPart ++ fracAndRest.1 ++ e :: expSignAndRest.1 ++ d.1), d.2)
          else some (String.mk (sign ++ intPart ++ fracAndRest.1), afterFrac)
        | [] => some (String.mk (sign ++ intPart ++ fracAndRest.1), [])
    else if isDigitCh c then
      let p := takeDigits (c :: cs)
      let intPart := p.1
      let afterInt := p.2
      let fracAndRest : List Char × List Char :=
        match afterInt with
        | '.' :: cs2 =>
          let q := takeDigits cs2
          if q.1.isEmpty then ([], afterInt) else ('.' :: q.1, q.2)
        | _ => ([], afterInt)
      if fracAndRest.1.isEmpty && (match afterInt with | '.' :: _ => true | _ => false) then none
      else
        let afterFrac := fracAndRest.2
        match afterFrac with
        | e :: rest =>
          if e == 'e' || e == 'E' then
            let expSignAndRest : List Char × List Char :=
              match rest with
              | '+' :: r2 => (['+'], r2)
              | '-' :: r2 => (['-'], r2)
              | r2 => ([], r2)
            let d := takeDigits expSignAndRest.2
            if d.1.isEmpty then none
            else some (String.mk (sign ++ intPart ++ fracAndRest.1 ++ e :: expSignAndRest.1 ++ d.1), d.2)
          else some (String.mk (sign ++ intPart ++ fracAndRest.1), afterFrac)
        | [] => some (String.mk (sign ++ intPart ++ fracAndRest.1), [])
    else none

mutual

/-- Parse one JSON value at the head of the input (leading whitespace allowed). -/
def parseValue : Nat → List Char → Option (Json × List Char)
  | 0, _ => none
  | fuel + 1, cs0 =>
    match skipWs cs0 with
    | [] => none
    | c :: cs =>
      if c == '"' then (parseStringBody fuel cs).map fun p => (Json.str p.1, p.2)
      else if c == '[' then
        match skipWs cs with
        | ']' :: cs2 => some (Json.arr [], cs2)
        | cs2 => (parseArrayItems fuel cs2).map fun p => (Json.arr p.1, p.2)
      else if c == '\x7b' then
        match skipWs cs with
        | '\x7d' :: cs2 => some (Json.obj [], cs2)
        | cs2 => (parseObjItems fuel cs2).map fun p => (Json.obj p.1, p.2)
      else if c == 't' then
        match cs with
        | 'r' :: 'u' :: 'e' :: cs2 => some (Json.bool true, cs2)
        | _ => none
      else if c == 'f' then
        match cs with
        | 'a' :: 'l' :: 's' :: 'e' :: cs2 => some (Json.bool false, cs2)
        | _ => none
      else if c == 'n' then
        match cs with
        | 'u' :: 'l' :: 'l' :: cs2 => some (Json.null, cs2)
        | _ => none
      else if c == '-' || isDigitCh c then
        (parseNumber (c :: cs)).map fun p => (Json.num p.1, p.2)
      else none

/-- Parse the comma-separated items of a non-empty JSON array, up to and
including the closing bracket. -/
def parseArrayItems : Nat → List Char → Option (List Json × List Char)
  | 0, _ => none
  | fuel + 1, cs0 =>
    match parseValue fuel cs0 with
    | none => none
    | some (v, rest) =>
      match skipWs rest with
      | ',' :: rest2 =>
        match parseArrayItems fuel rest2 with
        | none => none
        | some (vs, rest3) => some (v :: vs, rest3)
      | ']' :: rest2 => some ([v], rest2)
      | _ => none

/-- Parse the comma-separated members of a non-empty JSON object, up to and
including the closing brace. -/
def parseObjItems : Nat → List Char → Option (List (String × Json) × List Char)
  | 0, _ => none
  | fuel + 1, cs0 =>
    match skipWs cs0 with
    | '"' :: cs =>
      match parseStringBody fuel cs with
      | none => none
      | some (key, rest) =>
        match skipWs rest with
        | ':' :: rest2 =>
          match parseValue fuel rest2 with
          | none => none
          | some (v, rest3) =>
            match skipWs rest3 with
            | ',' :: rest4 =>
              match parseObjItems fuel rest4 with
              | none => none
              | some (fs, rest5) => some ((key, v) :: fs, rest5)
            | '\x7d' :: rest4 => some ([(key, v)], rest4)
            | _ => none
        | _ => none
    | _ => none

end

/-- Model of Python's `json.loads`: parse one JSON document and require only
trailing whitespace after it. -/
def json_loads (s : String) : Option Json :=
  match parseValue (s.length + 1) s.toList with
  | some (j, rest) => if (skipWs rest).isEmpty then some j else none
  | none => none

/-- `OpenAIProvider.generate_response` (llm_interface.py:38-41): a stub
returning fixed placeholder text. -/
def OpenAIProvider.generate_response (_prompt : String) : String :=
  "Mock response - implement with actual OpenAI API"

/-- `LocalLLMProvider.generate_response` (llm_interface.py:59-62): a stub
returning fixed placeholder text. -/
def LocalLLMProvider.generate_response (_prompt : String) : String :=
  "Mock response - implement with local LLM"

/-- The prompt built by `parse_natural_language_command` around the user
input (llm_interface.py:82-104); literal braces of the embedded JSON example
written with escapes. -/
def nlPrompt (user_input : String) : String :=
  "\n        Parse the following user request into a structured command:\n        \n" ++
  "        User Input: \"" ++ user_input ++ "\"\n        \n" ++
  "        Return a JSON structure with:\n" ++
  "        - action: The main action to perform\n" ++
  "        - target: What to modify/configure\n" ++
  "        - parameters: Any specific parameters\n" ++
  "        - safety_level: risk assessment (low/medium/high)\n" ++
  "        - requires_backup: whether backup is needed\n" ++
  "        - admin_required: whether admin privileges needed\n        \n" ++
  "        Example:\n        \x7b\n" ++
  "            \"action\": \"install\",\n" ++
  "            \"target\": \"development_environment\",\n" ++
  "            \"parameters\": \x7b\"languages\": [\"python\", \"nodejs\"]\x7d,\n" ++
  "            \"safety_level\": \"low\",\n" ++
  "            \"requires_backup\": false,\n" ++
  "            \"admin_required\": true\n        \x7d\n        "

/-- The error record returned on JSON decode failure. -/
def errorRecord : Json := Json.obj [("error", Json.str "Failed to parse command")]

/-- `LLMInterface.parse_natural_language_command` (llm_interface.py:80-115):
builds the prompt, asks the provider for a response, `json.loads` it; a
`JSONDecodeError` is caught and turned into the error record
`{"error": "Failed to parse command"}` (written here with escaped braces). -/
def parse_natural_language_command (generate_response : String → String)
    (user_input : String) : Json :=
  let response := generate_response (nlPrompt user_input)
  match json_loads response with
  | some parsed => parsed
  | none => errorRecord

/-- Unfolding of `rollback_snapshot` on an existing snapshot directory. -/
theorem rollback_snapshot_some (env : RollbackEnv) (snap : Snapshot) :
    rollback_snapshot env (some snap) =
      if env.osIsNt && hasRegBackup snap then
        if env.regImportOk then
          { result := true, regImportAttempted := true, restored := restoreFiles env snap }
        else { result := false, regImportAttempted := true, restored := [] }
      else
        { result := true, regImportAttempted := false, restored := restoreFiles env snap } := rfl

/-- Every target the restore table can produce is one of the three fixed
destinations. -/
theorem restoreTarget_cases (home name t : String)
    (h : restoreTarget home name = some t) :
    t = home ++ "/.bashrc" ∨ t = home ++ "/.ssh/config" ∨ t = "/etc/hosts" := by
  unfold restoreTarget at h
  split_ifs at h with h1 h2 h3 h4
  · exact Or.inl (Option.some_injective _ h).symm
  · exact Or.inr (Or.inl (Option.some_injective _ h).symm)
  · exact Or.inr (Or.inr (Option.some_injective _ h).symm)

/-- C1: with an existing snapshot directory, the rollback result is false
exactly when a registry import was attempted (Windows and a registry export
present) and failed; per-file restore errors never make it false, and when
the registry step does not fail the loop restores every mapped file whose
copy succeeds, regardless of other copy failures. -/
theorem rollback_registry_failure_forces_false (env : RollbackEnv) (snap : Snapshot) :
    (rollback_snapshot env (some snap)).result =
      (!(env.osIsNt && hasRegBackup snap) || env.regImportOk) ∧
    ((env.osIsNt && hasRegBackup snap && !env.regImportOk) = false →
      ∀ n c, (n, c) ∈ snap.files → ∀ t, restoreTarget env.home n = some t →
        env.copyOk n = true → (t, c) ∈ (rollback_snapshot env (some snap)).restored) := by
  constructor
  · rw [rollback_snapshot_some]
    cases h1 : env.osIsNt && hasRegBackup snap with
    | false => simp [h1]
    | true =>
      cases h2 : env.regImportOk with
      | false => simp [h1, h2]
      | true => simp [h1, h2]
  · intro hcond n c hmem t ht hcopy
    have hrest : (rollback_snapshot env (some snap)).restored = restoreFiles env snap := by
      rw [rollback_snapshot_some]
      split
      next hab =>
        split
        next => rfl
        next hok =>
          exfalso
          rw [hab] at hcond
          rw [Bool.not_eq_true] at hok
          rw [hok] at hcond
          simp at hcond
      next => rfl
    rw [hrest]
    unfold restoreFiles
    refine List.mem_filterMap.mpr ⟨(n, c), hmem, ?_⟩
    simp only [ht, hcopy, if_true]

def rbenvC1 : RollbackEnv :=
  { osIsNt := true, regImportOk := false, home := "/home/u",
    copyOk := fun nm => !(nm == ".bashrc") }

def rbenvC1b : RollbackEnv :=
  { osIsNt := false, regImportOk := false, home := "/home/u",
    copyOk := fun nm => !(nm == ".bashrc") }

def snapC1 : Snapshot :=
  ⟨[("registry_backup.reg", "REG"), (".bashrc", "B"), ("hosts", "H"), ("metadata.json", "M")]⟩

/-- C1 witness: on Windows with a failing registry import the rollback of a
concrete snapshot returns false; without that failure the `hosts` file is
restored even though the `.bashrc` copy fails. -/
theorem rollback_registry_failure_forces_false_witness :
    (rollback_snapshot rbenvC1 (some snapC1)).result = false ∧
    ("/etc/hosts", "H") ∈ (rollback_snapshot rbenvC1b (some snapC1)).restored := by
  constructor
  · rw [(rollback_registry_failure_forces_false rbenvC1 snapC1).1]; decide
  · exact (rollback_registry_failure_forces_false rbenvC1b snapC1).2 (by decide)
      "hosts" "H" (by decide) "/etc/hosts" (by decide) (by decide)

/-- C3: rolling back a snapshot id whose directory does not exist returns
false and performs no side effects: no registry import is attempted and no
file is restored. -/
theorem rollback_missing_snapshot (env : RollbackEnv) :
    rollback_snapshot env none =
      { result := false, regImportAttempted := false, restored := [] } := rfl

/-- C4: a file whose name is not `metadata.json`, `registry_backup.reg`,
`.bashrc`, `config` or `hosts` is silently skipped: adding it to a snapshot
changes nothing about the rollback outcome; every restore ever performed
targets only the home `.bashrc`, the SSH config path or `/etc/hosts`; and
when the registry step does not fail the rollback returns true. -/
theorem rollback_skips_unmapped_files (env : RollbackEnv) (snap : Snapshot)
    (n c : String)
    (hn : n ∉ ["metadata.json", "registry_backup.reg", ".bashrc", "config", "hosts"]) :
    rollback_snapshot env (some ⟨(n, c) :: snap.files⟩) = rollback_snapshot env (some snap) ∧
    (∀ t v, (t, v) ∈ (rollback_snapshot env (some snap)).restored →
      t = env.home ++ "/.bashrc" ∨ t = env.home ++ "/.ssh/config" ∨ t = "/etc/hosts") ∧
    ((env.osIsNt && hasRegBackup snap && !env.regImportOk) = false →
      (rollback_snapshot env (some snap)).result = true) := by
  simp only [List.mem_cons, List.mem_singleton] at hn
  push_neg at hn
  obtain ⟨h1, h2, h3, h4, h5, -⟩ := hn
  have htgt : restoreTarget env.home n = none := by
    unfold restoreTarget
    simp [h1, h2, h3, h4, h5]
  have hreg : hasRegBackup ⟨(n, c) :: snap.files⟩ = hasRegBackup snap := by
    unfold hasRegBackup
    simp [List.any_cons, h2]
  have hfiles : restoreFiles env ⟨(n, c) :: snap.files⟩ = restoreFiles env snap := by
    unfold restoreFiles
    simp only [List.filterMap_cons, htgt]
  refine ⟨?_, ?_, ?_⟩
  · rw [rollback_snapshot_some, rollback_snapshot_some, hreg, hfiles]
  · intro t v hmem
    have hsub : (rollback_snapshot env (some snap)).restored = restoreFiles env snap ∨
        (rollback_snapshot env (some snap)).restored = [] := by
      rw [rollback_snapshot_some]
      split
      · split
        · exact Or.inl rfl
        · exact Or.inr rfl
      · exact Or.inl rfl
    rcases hsub with hs | hs
    · rw [hs] at hmem
      obtain ⟨⟨m, w⟩, _, hf⟩ := List.mem_filterMap.mp hmem
      rcases htc : restoreTarget env.home m with _ | tt
      · rw [htc] at hf; simp at hf
      · rw [htc] at hf
        rcases hcopy : env.copyOk m with _ | _ <;> rw [hcopy] at hf <;> simp at hf
        have heq : t = tt := hf.1.symm
        subst heq
        exact restoreTarget_cases env.home m t htc
    · rw [hs] at hmem; simp at hmem
  · intro hcond
    rw [(rollback_registry_failure_forces_false env snap).1]
    cases hab : env.osIsNt && hasRegBackup snap with
    | false => simp [hab]
    | true =>
      rw [hab] at hcond
      cases hok : env.regImportOk with
      | false => rw [hok] at hcond; simp at hcond
      | true => simp [hab, hok]

def rbenvC4 : RollbackEnv :=
  { osIsNt := false, regImportOk := true, home := "/h", copyOk := fun _ => true }

def snapC4 : Snapshot := ⟨[(".bashrc", "B"), ("metadata.json", "M")]⟩

/-- C4 witness: adding the unmapped file `unknown.cfg` to a concrete snapshot
leaves the rollback outcome unchanged, and the rollback returns true. -/
theorem rollback_skips_unmapped_files_witness :
    rollback_snapshot rbenvC4 (some ⟨("unknown.cfg", "u") :: snapC4.files⟩) =
      rollback_snapshot rbenvC4 (some snapC4) ∧
    (rollback_snapshot rbenvC4 (some snapC4)).result = true :=
  ⟨(rollback_skips_unmapped_files rbenvC4 snapC4 "unknown.cfg" "u" (by decide)).1,
   (rollback_skips_unmapped_files rbenvC4 snapC4 "unknown.cfg" "u" (by decide)).2.2 (by decide)⟩

/-- The snapshot created at the top of `safe_execute`. -/
def snapOf (cfg : SafeExecCfg) : CreateResult :=
  create_system_snapshot cfg.operation_name cfg.timestamp cfg.createEnv

/-- The backup root after `safe_execute` added its snapshot. -/
def rootAfter (cfg : SafeExecCfg) : List DirEntry :=
  cfg.root ++ [DirEntry.dirMeta (snapOf cfg).metadata]

/-- The events every `safe_execute` run begins with. -/
def ev0Of (cfg : SafeExecCfg) : List Event :=
  [Event.snapCreate (snapOf cfg).snapshot_id, Event.confirmPrompt]

/-- Branch lemma: a non-affirmative confirmation answer cancels the run. -/
theorem safe_execute_declined (cfg : SafeExecCfg)
    (h : isAffirmative cfg.confirmAnswer = false) :
    safe_execute cfg =
      { res := (false, "", "Operation cancelled"), events := ev0Of cfg,
        snapshot := snapOf cfg, finalRoot := rootAfter cfg } := by
  unfold safe_execute
  rw [h]
  rfl

/-- Branch lemma: a confirmed run whose subprocess completes. -/
theorem safe_execute_completed (cfg : SafeExecCfg)
    (h : isAffirmative cfg.confirmAnswer = true) (rc : Int) (out err : String)
    (hx : cfg.execOutcome = ExecOutcome.completed rc out err) :
    safe_execute cfg =
      if rc = 0 then
        { res := (true, out, err), events := ev0Of cfg ++ [Event.execCmd],
          snapshot := snapOf cfg, finalRoot := rootAfter cfg }
      else if isAffirmative cfg.rollbackAnswer then
        { res := (false, out, err),
          events := ev0Of cfg ++ [Event.execCmd, Event.rollbackPrompt,
            Event.rollbackRun (rollback_snapshot cfg.rollbackEnv (some (snapOf cfg).dir)).result],
          snapshot := snapOf cfg, finalRoot := rootAfter cfg }
      else
        { res := (false, out, err),
          events := ev0Of cfg ++ [Event.execCmd, Event.rollbackPrompt],
          snapshot := snapOf cfg, finalRoot := rootAfter cfg } := by
  unfold safe_execute
  rw [h, hx]
  rfl

/-- Branch lemma: a confirmed run whose subprocess raises `TimeoutExpired`. -/
theorem safe_execute_timeout (cfg : SafeExecCfg)
    (h : isAffirmative cfg.confirmAnswer = true)
    (hx : cfg.execOutcome = ExecOutcome.timedOut) :
    safe_execute cfg =
      { res := (false, "", "Command timed out"), events := ev0Of cfg ++ [Event.execCmd],
        snapshot := snapOf cfg, finalRoot := rootAfter cfg } := by
  unfold safe_execute
  rw [h, hx]
  rfl

/-- Branch lemma: a confirmed run whose subprocess raises another exception. -/
theorem safe_execute_raised (cfg : SafeExecCfg)
    (h : isAffirmative cfg.confirmAnswer = true) (msg : String)
    (hx : cfg.execOutcome = ExecOutcome.raised msg) :
    safe_execute cfg =
      { res := (false, "", msg), events := ev0Of cfg ++ [Event.execCmd],
        snapshot := snapOf cfg, finalRoot := rootAfter cfg } := by
  unfold safe_execute
  rw [h, hx]
  rfl

/-- C5: after an affirmative confirmation, exit code 0 yields
`(True, stdout, stderr)`, a non-zero exit yields `(False, stdout, stderr)`
with the captured stderr, and a timeout yields the distinct
`(False, "", "Command timed out")`. -/
theorem safe_execute_result_classification (cfg : SafeExecCfg)
    (h : isAffirmative cfg.confirmAnswer = true) :
    (∀ out err, cfg.execOutcome = ExecOutcome.completed 0 out err →
      (safe_execute cfg).res = (true, out, err)) ∧
    (∀ rc out err, cfg.execOutcome = ExecOutcome.completed rc out err → rc ≠ 0 →
      (safe_execute cfg).res = (false, out, err)) ∧
    (cfg.execOutcome = ExecOutcome.timedOut →
      (safe_execute cfg).res = (false, "", "Command timed out")) := by
  refine ⟨?_, ?_, ?_⟩
  · intro out err hx
    rw [safe_execute_completed cfg h 0 out err hx, if_pos rfl]
  · intro rc out err hx hrc
    rw [safe_execute_completed cfg h rc out err hx, if_neg hrc]
    split <;> rfl
  · intro hx
    rw [safe_execute_timeout cfg h hx]

def cenvBase : CreateEnv :=
  { osIsNt := false, regExportOk := false, regExportContent := "",
    bashrcExists := true, bashrcContent := "export A=1", sshConfigExists := false,
    sshConfigContent := "", etcHostsExists := true, etcHostsContent := "127.0.0.1 localhost",
    copyOk := fun _ => true, system := "posix", user := "u", cwd := "/work" }

def rbenvBase : RollbackEnv :=
  { osIsNt := false, regImportOk := true, home := "/home/u", copyOk := fun _ => true }

def cfgBase : SafeExecCfg :=
  { command := "apt install pkg", operation_name := "install", require_admin := false,
    timestamp := "20250101_120000", createEnv := cenvBase, root := [],
    confirmAnswer := "yes", execOutcome := ExecOutcome.completed 0 "done" "",
    rollbackAnswer := "yes", rollbackEnv := rbenvBase }

/-- C5 witness: the three result shapes at concrete configurations. -/
theorem safe_execute_result_classification_witness :
    (safe_execute { cfgBase with execOutcome := ExecOutcome.completed 0 "ok" "" }).res
      = (true, "ok", "") ∧
    (safe_execute { cfgBase with execOutcome := ExecOutcome.completed 1 "o" "boom" }).res
      = (false, "o", "boom") ∧
    (safe_execute { cfgBase with execOutcome := ExecOutcome.timedOut }).res
      = (false, "", "Command timed out") :=
  ⟨(safe_execute_result_classification _ (by decide)).1 "ok" "" rfl,
   (safe_execute_result_classification _ (by decide)).2.1 1 "o" "boom" rfl (by decide),
   (safe_execute_result_classification _ (by decide)).2.2 rfl⟩

/-- C6: the command executor is invoked iff the lowercased confirmation
answer is `yes` or `y`; any other answer returns
`(False, "", "Operation cancelled")`, never runs the command and never runs
a rollback. -/
theorem safe_execute_confirmation_gate (cfg : SafeExecCfg) :
    (Event.execCmd ∈ (safe_execute cfg).events ↔
      (pyLower cfg.confirmAnswer = "yes" ∨ pyLower cfg.confirmAnswer = "y")) ∧
    (¬(pyLower cfg.confirmAnswer = "yes" ∨ pyLower cfg.confirmAnswer = "y") →
      (safe_execute cfg).res = (false, "", "Operation cancelled") ∧
      ∀ b, Event.rollbackRun b ∉ (safe_execute cfg).events) := by
  have haffIff : isAffirmative cfg.confirmAnswer = true ↔
      (pyLower cfg.confirmAnswer = "yes" ∨ pyLower cfg.confirmAnswer = "y") := by
    unfold isAffirmative
    simp
  cases haff : isAffirmative cfg.confirmAnswer with
  | false =>
    have hnot : ¬(pyLower cfg.confirmAnswer = "yes" ∨ pyLower cfg.confirmAnswer = "y") := by
      rw [← haffIff, haff]
      simp
    rw [safe_execute_declined cfg haff]
    refine ⟨?_, fun _ => ⟨rfl, ?_⟩⟩
    · constructor
      · intro hmem
        exact absurd hmem (by simp [ev0Of])
      · intro hyes
        exact absurd hyes hnot
    · intro b
      simp [ev0Of]
  | true =>
    have hyes := haffIff.mp haff
    have hmem : Event.execCmd ∈ (safe_execute cfg).events := by
      cases hx : cfg.execOutcome with
      | completed rc out err =>
        rw [safe_execute_completed cfg haff rc out err hx]
        by_cases hrc : rc = 0
        · rw [if_pos hrc]
          simp [ev0Of]
        · rw [if_neg hrc]
          cases hrb : isAffirmative cfg.rollbackAnswer with
          | true => rw [if_pos rfl]; simp [ev0Of]
          | false => rw [if_neg Bool.false_ne_true]; simp [ev0Of]
      | timedOut =>
        rw [safe_execute_timeout cfg haff hx]
        simp [ev0Of]
      | raised msg =>
        rw [safe_execute_raised cfg haff msg hx]
        simp [ev0Of]
    exact ⟨⟨fun _ => hyes, fun _ => hmem⟩, fun hcontra => absurd hyes hcontra⟩

/-- C6 witness: answering `no` at the initial prompt cancels the run. -/
theorem safe_execute_confirmation_gate_witness :
    (safe_execute { cfgBase with confirmAnswer := "no" }).res =
      (false, "", "Operation cancelled") :=
  ((safe_execute_confirmation_gate { cfgBase with confirmAnswer := "no" }).2 (by decide)).1

def cfgTimeout : SafeExecCfg := { cfgBase with execOutcome := ExecOutcome.timedOut }

/-- C2 counterexample: a confirmed execution that fails by timing out is a
failure for which no rollback prompt is ever presented, contradicting the
claim that every failure leads to a rollback offer. -/
theorem safe_execute_timeout_no_rollback_prompt :
    (safe_execute cfgTimeout).res = (false, "", "Command timed out") ∧
    Event.rollbackPrompt ∉ (safe_execute cfgTimeout).events := by
  constructor
  · rfl
  · decide

/-- C2 amended: after an affirmative confirmation, the rollback prompt is
presented exactly when the subprocess completes with a non-zero exit code
(timeouts and launch failures return directly with no prompt), and a rollback
runs iff the prompt was shown and its answer was affirmative. -/
theorem safe_execute_rollback_prompt_iff_nonzero_exit (cfg : SafeExecCfg)
    (h : isAffirmative cfg.confirmAnswer = true) :
    (Event.rollbackPrompt ∈ (safe_execute cfg).events ↔
      ∃ rc out err, cfg.execOutcome = ExecOutcome.completed rc out err ∧ rc ≠ 0) ∧
    ((∃ b, Event.rollbackRun b ∈ (safe_execute cfg).events) ↔
      Event.rollbackPrompt ∈ (safe_execute cfg).events ∧
        isAffirmative cfg.rollbackAnswer = true) := by
  cases hx : cfg.execOutcome with
  | completed rc out err =>
    rw [safe_execute_completed cfg h rc out err hx]
    by_cases hrc : rc = 0
    · rw [if_pos hrc]
      constructor
      · constructor
        · intro hmem
          exact absurd hmem (by simp [ev0Of])
        · rintro ⟨rc2, out2, err2, heq, hne⟩
          cases heq
          exact absurd hrc hne
      · constructor
        · rintro ⟨b, hb⟩
          exact absurd hb (by simp [ev0Of])
        · rintro ⟨hp, -⟩
          exact absurd hp (by simp [ev0Of])
    · rw [if_neg hrc]
      cases hrb : isAffirmative cfg.rollbackAnswer with
      | true =>
        rw [if_pos rfl]
        constructor
        · exact ⟨fun _ => ⟨rc, out, err, rfl, hrc⟩, fun _ => by simp [ev0Of]⟩
        · constructor
          · intro _
            exact ⟨by simp [ev0Of], rfl⟩
          · intro _
            exact ⟨(rollback_snapshot cfg.rollbackEnv (some (snapOf cfg).dir)).result,
              by simp [ev0Of]⟩
      | false =>
        rw [if_neg Bool.false_ne_true]
        constructor
        · exact ⟨fun _ => ⟨rc, out, err, rfl, hrc⟩, fun _ => by simp [ev0Of]⟩
        · constructor
          · rintro ⟨b, hb⟩
            exact absurd hb (by simp [ev0Of])
          · rintro ⟨-, habs⟩
            exact absurd habs Bool.false_ne_true
  | timedOut =>
    rw [safe_execute_timeout cfg h hx]
    constructor
    · constructor
      · intro hmem
        exact absurd hmem (by simp [ev0Of])
      · rintro ⟨rc2, out2, err2, heq, -⟩
        cases heq
    · constructor
      · rintro ⟨b, hb⟩
        exact absurd hb (by simp [ev0Of])
      · rintro ⟨hp, -⟩
        exact absurd hp (by simp [ev0Of])
  | raised msg =>
    rw [safe_execute_raised cfg h msg hx]
    constructor
    · constructor
      · intro hmem
        exact absurd hmem (by simp [ev0Of])
      · rintro ⟨rc2, out2, err2, heq, -⟩
        cases heq
    · constructor
      · rintro ⟨b, hb⟩
        exact absurd hb (by simp [ev0Of])
      · rintro ⟨hp, -⟩
        exact absurd hp (by simp [ev0Of])

def cfgFailExec : SafeExecCfg :=
  { cfgBase with execOutcome := ExecOutcome.completed 2 "" "permission denied" }

/-- C2 amended witness: with a concrete non-zero exit the rollback prompt is
shown and, the answer being affirmative, a rollback runs. -/
theorem safe_execute_rollback_prompt_iff_nonzero_exit_witness :
    Event.rollbackPrompt ∈ (safe_execute cfgFailExec).events ∧
    ∃ b, Event.rollbackRun b ∈ (safe_execute cfgFailExec).events := by
  have h := safe_execute_rollback_prompt_iff_nonzero_exit cfgFailExec (by decide)
  have hp : Event.rollbackPrompt ∈ (safe_execute cfgFailExec).events :=
    h.1.mpr ⟨2, "", "permission denied", rfl, by decide⟩
  exact ⟨hp, h.2.mpr ⟨hp, by decide⟩⟩

/-- C10: the snapshot is created before the confirmation prompt is shown, so
even when the user declines (result `(False, "", "Operation cancelled")`) a
snapshot directory containing `metadata.json` has been added to the backup
root, and cancellation never removes it. -/
theorem safe_execute_snapshot_before_prompt (cfg : SafeExecCfg) :
    (safe_execute cfg).events.take 2 =
      [Event.snapCreate (snapOf cfg).snapshot_id, Event.confirmPrompt] ∧
    (safe_execute cfg).snapshot = snapOf cfg ∧
    ("metadata.json", metadataToJsonString (snapOf cfg).metadata) ∈ (snapOf cfg).dir.files ∧
    (isAffirmative cfg.confirmAnswer = false →
      (safe_execute cfg).res = (false, "", "Operation cancelled") ∧
      (safe_execute cfg).finalRoot =
        cfg.root ++ [DirEntry.dirMeta (snapOf cfg).metadata]) := by
  have hshape : (safe_execute cfg).events.take 2 =
        [Event.snapCreate (snapOf cfg).snapshot_id, Event.confirmPrompt] ∧
      (safe_execute cfg).snapshot = snapOf cfg ∧
      (safe_execute cfg).finalRoot = cfg.root ++ [DirEntry.dirMeta (snapOf cfg).metadata] := by
    cases haff : isAffirmative cfg.confirmAnswer with
    | false =>
      rw [safe_execute_declined cfg haff]
      exact ⟨rfl, rfl, rfl⟩
    | true =>
      cases hx : cfg.execOutcome with
      | completed rc out err =>
        rw [safe_execute_completed cfg haff rc out err hx]
        by_cases hrc : rc = 0
        · rw [if_pos hrc]
          exact ⟨rfl, rfl, rfl⟩
        · rw [if_neg hrc]
          cases hrb : isAffirmative cfg.rollbackAnswer with
          | true => rw [if_pos rfl]; exact ⟨rfl, rfl, rfl⟩
          | false => rw [if_neg Bool.false_ne_true]; exact ⟨rfl, rfl, rfl⟩
      | timedOut =>
        rw [safe_execute_timeout cfg haff hx]
        exact ⟨rfl, rfl, rfl⟩
      | raised msg =>
        rw [safe_execute_raised cfg haff msg hx]
        exact ⟨rfl, rfl, rfl⟩
  refine ⟨hshape.1, hshape.2.1, ?_, fun haff => ⟨?_, hshape.2.2⟩⟩
  · show ("metadata.json", _) ∈ (create_system_snapshot _ _ _).dir.files
    simp [create_system_snapshot, snapOf]
  · rw [safe_execute_declined cfg haff]

/-- C10 witness: declining at a concrete configuration cancels the run while
the backup root has gained the new snapshot entry. -/
theorem safe_execute_snapshot_before_prompt_witness :
    (safe_execute { cfgBase with confirmAnswer := "n" }).res =
      (false, "", "Operation cancelled") ∧
    (safe_execute { cfgBase with confirmAnswer := "n" }).finalRoot =
      cfgBase.root ++
        [DirEntry.dirMeta (snapOf { cfgBase with confirmAnswer := "n" }).metadata] :=
  (safe_execute_snapshot_before_prompt { cfgBase with confirmAnswer := "n" }).2.2.2 (by decide)

/-- Membership in `list_snapshots`: exactly the metadata of directories with
parseable metadata. -/
theorem list_snapshots_mem_iff (root : List DirEntry) (m : Metadata) :
    m ∈ list_snapshots root ↔ DirEntry.dirMeta m ∈ root := by
  unfold list_snapshots
  rw [(List.perm_insertionSort tsDesc _).mem_iff, List.mem_filterMap]
  constructor
  · rintro ⟨e, he, hEq⟩
    cases e with
    | file n => simp at hEq
    | dirNoMeta n => simp at hEq
    | dirBadMeta n => simp at hEq
    | dirMeta m2 =>
      simp only [Option.some.injEq] at hEq
      subst hEq
      exact he
  · intro hm
    exact ⟨DirEntry.dirMeta m, hm, rfl⟩

/-- C7: a freshly created snapshot's metadata carries the returned id, the
operation name and the timestamp, and is listed by `list_snapshots` once its
directory is in the backup root; `list_snapshots` contains exactly the
entries with parseable metadata and is sorted by timestamp string
descending. -/
theorem create_then_list_snapshots (op ts : String) (env : CreateEnv)
    (root : List DirEntry) :
    (create_system_snapshot op ts env).metadata.snapshot_id =
      (create_system_snapshot op ts env).snapshot_id ∧
    (create_system_snapshot op ts env).metadata.operation = op ∧
    (create_system_snapshot op ts env).metadata.timestamp = ts ∧
    (create_system_snapshot op ts env).metadata ∈
      list_snapshots (root ++ [DirEntry.dirMeta (create_system_snapshot op ts env).metadata]) ∧
    (∀ m : Metadata, m ∈ list_snapshots root ↔ DirEntry.dirMeta m ∈ root) ∧
    List.Sorted tsDesc (list_snapshots root) := by
  refine ⟨rfl, rfl, rfl, ?_, list_snapshots_mem_iff root, ?_⟩
  · rw [list_snapshots_mem_iff]
    simp
  · unfold list_snapshots
    exact List.sorted_insertionSort tsDesc _

/-- C8: `create_system_snapshot` never fails the caller: for every
environment, whatever the copy failures, it returns the id
`{operation_name}_{timestamp}`, writes `metadata.json` into the created
directory, and fills the metadata record from its inputs. -/
theorem create_system_snapshot_never_fails (op ts : String) (env : CreateEnv) :
    (create_system_snapshot op ts env).snapshot_id = op ++ "_" ++ ts ∧
    ("metadata.json", metadataToJsonString (create_system_snapshot op ts env).metadata) ∈
      (create_system_snapshot op ts env).dir.files ∧
    (create_system_snapshot op ts env).metadata =
      { snapshot_id := op ++ "_" ++ ts, timestamp := ts, operation := op,
        system := env.system, user := env.user, cwd := env.cwd } := by
  refine ⟨rfl, ?_, rfl⟩
  simp [create_system_snapshot]

/-- C9: whenever the provider's response is not valid JSON,
`parse_natural_language_command` returns the record
`{"error": "Failed to parse command"}` instead of raising; in particular the
response `not json` is not valid JSON, and both mock providers' fixed
responses always produce the error record. -/
theorem parse_nl_command_decode_failure :
    (∀ (gen : String → String) (user_input : String),
      json_loads (gen (nlPrompt user_input)) = none →
      parse_natural_language_command gen user_input = errorRecord) ∧
    json_loads "not json" = none ∧
    (∀ user_input,
      parse_natural_language_command OpenAIProvider.generate_response user_input
        = errorRecord) ∧
    (∀ user_input,
      parse_natural_language_command LocalLLMProvider.generate_response user_input
        = errorRecord) := by
  refine ⟨?_, rfl, fun _ => rfl, fun _ => rfl⟩
  intro gen ui h
  simp only [parse_natural_language_command]
  rw [h]

/-- C9 witness: a provider answering the literal `not json` yields the error
record for a concrete user input. -/
theorem parse_nl_command_decode_failure_witness :
    parse_natural_language_command (fun _ => "not json") "list my files" = errorRecord :=
  parse_nl_command_decode_failure.1 (fun _ => "not json") "list my files" rfl
